import Mathlib

/-!
# Verification of the kegbot flow-controller protocol engine

A shallow embedding of `src/pykeg/FlowController.py`: the status-packet
decoder (`StatusPacket`), the controller's frame receive path
(`FlowController.recvPacket` / `statusLoop`), the fridge command path
(`FlowController.enableFridge`), and the hardware-free simulator
(`FlowSimulator`).

Bytes are modelled as natural numbers (Python's `ord` values); a frame
(one line read from the serial pipe) is a `List ℕ`.  The temperature value
is modelled as an exact rational: the Python float arithmetic involved
(`n * 0.0625` for `n ≤ 2047`, and negation) is exact in IEEE double
precision, so ℚ is a faithful model.  Python exceptions are modelled as
explicit outcome constructors.
-/

/-- Decoded status report, embedding class `StatusPacket`'s fields as set
by `StatusPacket.__init__`. -/
structure StatusPacket where
  temp : ℚ
  ticks : ℕ
  fridge : ℕ
  valve : ℕ
deriving Repr, DecidableEq

def FRIDGE_OFF : ℕ := 0
def FRIDGE_ON : ℕ := 1
def FRIDGE_UNKNOWN : ℕ := 2
def VALVE_CLOSED : ℕ := 0
def VALVE_OPEN : ℕ := 1

/-- Command bytes from `FlowController.__init__`. -/
def CMD_STATUS : ℕ := 0x81
def CMD_VALVEON : ℕ := 0x83
def CMD_VALVEOFF : ℕ := 0x84
def CMD_FRIDGEON : ℕ := 0x90
def CMD_FRIDGEOFF : ℕ := 0x91
def CMD_READTEMP : ℕ := 0x93

/-- Embeds `StatusPacket._ConvertTemp(self, msbyte, lsbyte)`:
`val = (msbyte & 0x7)*256 + lsbyte; val = val * 0.0625;
if msbyte >> 3 != 0: val = -1 * val`. -/
def convertTemp (msbyte lsbyte : ℕ) : ℚ :=
  let val : ℚ := (((msbyte &&& 0x7) * 256 + lsbyte : ℕ) : ℚ)
  let val := val * 0.0625
  if msbyte >>> 3 ≠ 0 then -1 * val else val

/-- Embeds `StatusPacket.__init__(self, pkt)`, which indexes
`pkt[5], pkt[6], pkt[3], pkt[4], pkt[1], pkt[2]`.  In Python any index
past the end raises `IndexError`; here that is `none`. -/
def statusPacketInit (pkt : List ℕ) : Option StatusPacket :=
  match pkt[5]?, pkt[6]?, pkt[3]?, pkt[4]?, pkt[1]?, pkt[2]? with
  | some b5, some b6, some b3, some b4, some b1, some b2 =>
      some { temp := convertTemp b5 b6, ticks := b3 * 256 + b4,
             fridge := b1, valve := b2 }
  | _, _, _, _, _, _ => none

/-- Mutable state of a `FlowController` instance relevant to the claims:
`total_ticks`, the held last-status snapshot `status`, and
`last_fridge_time`. -/
structure FCState where
  total_ticks : ℕ
  status : Option StatusPacket
  last_fridge_time : ℚ
deriving Repr, DecidableEq

/-- State after `FlowController.__init__`: `total_ticks = 0`,
`last_fridge_time = 0`, `status = None`. -/
def initState : FCState :=
  { total_ticks := 0, status := none, last_fridge_time := 0 }

/-- Outcome of one `recvPacket` call. `exited` is `sys.exit(1)`;
`indexError` is the `IndexError` raised inside `StatusPacket.__init__`
propagating out of `recvPacket`. -/
inductive RecvOutcome where
  | exited
  | banner
  | noStart
  | badTrailer
  | indexError
  | accepted (s : StatusPacket)
deriving Repr, DecidableEq

/-- Log messages emitted by `recvPacket` (`self.logger.…` calls). -/
inductive LogMsg where
  | deviceWentAway
  | foundBoard (board : List ℕ)
  | noStartOfPacket
  | badTrailer
deriving Repr, DecidableEq

/-- Byte values of the frame markers: `M` = 77, `:` = 58, `K` = 75,
`\r` = 13, `\n` = 10. -/
def markerMN : List ℕ := [77, 58]
def markerK : List ℕ := [75]
def crlf : List ℕ := [13, 10]

/-- Embeds `FlowController.recvPacket(self)` acting on one line read from
the device pipe.  Mirrors the source's control flow:
`if line == '': … sys.exit(1)`;
`if not line.startswith('M:'): (K-banner or ignore); return None`;
`if not line.endswith('\r\n'): return None`;
`self.status = StatusPacket(map(ord, line[2:-2]))`;
`self.total_ticks += self.status.ticks`. -/
def recvPacket (st : FCState) (line : List ℕ) :
    FCState × RecvOutcome × List LogMsg :=
  if line = [] then
    (st, .exited, [.deviceWentAway])
  else if ¬ markerMN.isPrefixOf line then
    if markerK.isPrefixOf line then
      (st, .banner, [.foundBoard line.dropLast.dropLast])
    else
      (st, .noStart, [.noStartOfPacket])
  else if ¬ crlf.isSuffixOf line then
    (st, .badTrailer, [.badTrailer])
  else
    match statusPacketInit (line.drop 2).dropLast.dropLast with
    | none => (st, .indexError, [])
    | some s =>
        ({ st with total_ticks := st.total_ticks + s.ticks,
                   status := some s },
         .accepted s, [])

/-- The outcome of `recvPacket` depends only on the line, not on the
controller state; this names that pure classification. -/
def lineOutcome (line : List ℕ) : RecvOutcome :=
  (recvPacket initState line).2.1

def RecvOutcome.isAccepted : RecvOutcome → Bool
  | .accepted _ => true
  | _ => false

/-- Tick field carried by an accepted outcome (0 otherwise). -/
def RecvOutcome.ticksOf : RecvOutcome → ℕ
  | .accepted s => s.ticks
  | _ => 0

/-- State evolution over a sequence of received lines (ignoring loop
termination): repeated `recvPacket` calls. -/
def runLines (st : FCState) (lines : List (List ℕ)) : FCState :=
  lines.foldl (fun s l => (recvPacket s l).1) st

/-- How `statusLoop` can end: the `while` condition going false
(`normal`), an exception reaching the loop's bare `except:` clause,
which logs and returns (`caughtException`), or an exception escaping the
loop and killing the whole process (`processExit`).  The last mode is
what an uncaught `SystemExit` would do; it is listed so theorems can
state whether the code ever produces it. -/
inductive LoopExit where
  | normal
  | caughtException
  | processExit
deriving Repr, DecidableEq

/-- Embeds `FlowController.statusLoop`: each list element is one line the
poll found readable.  The whole loop body sits inside a bare `except:`
clause.  In Python 2 a bare `except:` catches `SystemExit` too, so the
`SystemExit` raised by `sys.exit(1)` inside `recvPacket` on end-of-stream
is caught exactly like the `IndexError` from `StatusPacket.__init__`:
the handler logs a packet read error and `statusLoop` returns normally
(`caughtException`) — the process is not terminated (and in a non-main
thread the `threading` module would swallow a `SystemExit` anyway).  In
both cases no further lines are processed. -/
def statusLoop (st : FCState) : List (List ℕ) → FCState × List RecvOutcome × LoopExit
  | [] => (st, [], LoopExit.normal)
  | line :: rest =>
    match recvPacket st line with
    | (st2, RecvOutcome.exited, _) =>
        (st2, [RecvOutcome.exited], LoopExit.caughtException)
    | (st2, RecvOutcome.indexError, _) =>
        (st2, [RecvOutcome.indexError], LoopExit.caughtException)
    | (st2, o, _) =>
        let r := statusLoop st2 rest
        (r.1, o :: r.2.1, r.2.2)

/-- Embeds `FlowController.enableFridge(self)`: the cooldown check is
commented out in the source, so the body is
`self.last_fridge_time = time.time()` followed by writing `CMD_FRIDGEON`
to the pipe under the lock.  Returns the new state and the bytes written
to the Link. -/
def enableFridge (st : FCState) (now : ℚ) : FCState × List ℕ :=
  ({ st with last_fridge_time := now }, [CMD_FRIDGEON])

/-- Python attribute access on a possibly-`None` object: `None.fridge`
raises `AttributeError`. -/
inductive PyResult (α : Type) where
  | ok (a : α)
  | attrError
deriving Repr, DecidableEq

/-- Embeds `FlowController.fridgeStatus(self)`:
`return self.status.fridge`, which raises `AttributeError` when
`self.status` is `None`. -/
def fridgeStatus (st : FCState) : PyResult ℕ :=
  match st.status with
  | none => PyResult.attrError
  | some s => PyResult.ok s.fridge

/-- Python `int()` applied to a rational value: truncation toward zero. -/
def pyInt (q : ℚ) : ℤ :=
  if 0 ≤ q then ⌊q⌋ else ⌈q⌉

/-- Embeds class `FlowSimulator`'s state: `fridge`, `valve`, `ticks`,
`open_time`. -/
structure FlowSimulator where
  fridge : ℕ
  valve : ℕ
  ticks : ℕ
  open_time : ℚ
deriving Repr, DecidableEq

/-- `FlowSimulator.__init__`. -/
def FlowSimulator.init : FlowSimulator :=
  { fridge := 0, valve := 0, ticks := 0, open_time := 0 }

/-- Embeds `FlowSimulator.readTicks(self)`:
`return max(0, int(50*(time.time() - self.open_time)))`. -/
def FlowSimulator.readTicks (s : FlowSimulator) (now : ℚ) : ℤ :=
  max 0 (pyInt (50 * (now - s.open_time)))

/-- Embeds `FlowSimulator.openValve(self)`. -/
def FlowSimulator.openValve (s : FlowSimulator) (now : ℚ) : FlowSimulator :=
  { s with valve := 1, open_time := now }

/-- Embeds `FlowSimulator.closeValve(self)`: sets `valve = 0` only;
`open_time` is not touched. -/
def FlowSimulator.closeValve (s : FlowSimulator) : FlowSimulator :=
  { s with valve := 0 }

/-! ## Helper lemmas about `recvPacket` -/

/-- The outcome component of `recvPacket` does not depend on the
controller state. -/
theorem recvPacket_outcome_indep (st st' : FCState) (line : List ℕ) :
    (recvPacket st line).2.1 = (recvPacket st' line).2.1 := by
  unfold recvPacket
  repeat' split
  all_goals rfl

theorem recvPacket_snd (st : FCState) (line : List ℕ) :
    (recvPacket st line).2.1 = lineOutcome line :=
  recvPacket_outcome_indep st initState line

/-- State evolution of one `recvPacket` call, by outcome: an accepted
frame replaces the snapshot and adds its ticks; every other outcome
leaves the state untouched. -/
theorem recvPacket_state (st : FCState) (line : List ℕ) :
    (recvPacket st line).1 =
      match (recvPacket st line).2.1 with
      | RecvOutcome.accepted s =>
          { st with total_ticks := st.total_ticks + s.ticks,
                    status := some s }
      | _ => st := by
  unfold recvPacket
  repeat' split
  all_goals simp_all

theorem recvPacket_not_accepted (st : FCState) (line : List ℕ)
    (h : (lineOutcome line).isAccepted = false) :
    (recvPacket st line).1 = st := by
  rw [recvPacket_state, recvPacket_snd]
  cases ho : lineOutcome line <;> simp_all [RecvOutcome.isAccepted]

theorem recvPacket_ticks_mono (st : FCState) (line : List ℕ) :
    st.total_ticks ≤ (recvPacket st line).1.total_ticks := by
  rw [recvPacket_state]
  cases (recvPacket st line).2.1 <;> simp

/-! ## Claim theorems -/

/-- C1: the claim says every frame whose stripped payload is not exactly
the expected fixed length (5 bytes) is rejected without raising, leaving
`total_ticks` and the status snapshot unchanged.  The code has no length
check: the 4-byte frame `M:\r\n` (empty payload) reaches
`StatusPacket.__init__` and raises `IndexError`, while an 11-byte frame
with a 7-byte payload is accepted outright and mutates `total_ticks` and
the snapshot. -/
theorem recvPacket_wrong_length_not_rejected :
    lineOutcome [77, 58, 13, 10] = RecvOutcome.indexError ∧
    (lineOutcome [77, 58, 1, 1, 0, 0, 5, 0, 16, 13, 10]).isAccepted = true ∧
    (recvPacket initState [77, 58, 1, 1, 0, 0, 5, 0, 16, 13, 10]).1.total_ticks = 5 ∧
    (recvPacket initState [77, 58, 1, 1, 0, 0, 5, 0, 16, 13, 10]).1.status.isSome = true := by
  refine ⟨by decide, by decide, by decide, by decide⟩

/-- C2: the claim says every valid 9-byte frame (`M:` + 5 payload bytes +
CRLF) decodes without raising.  In the code `StatusPacket.__init__` reads
`pkt[5]` and `pkt[6]`, which do not exist in a 5-byte payload, so every
such frame raises `IndexError` instead of decoding. -/
theorem nine_byte_frame_decode_raises :
    statusPacketInit [1, 1, 0, 0, 5] = none ∧
    lineOutcome [77, 58, 1, 1, 0, 0, 5, 13, 10] = RecvOutcome.indexError := by
  refine ⟨by decide, by decide⟩

/-- C4: for byte inputs, the decoded temperature is
`((sign & 0x07) * 256 + magnitude) * 0.0625`, negated exactly when the
upper 5 bits of the sign byte are nonzero (equivalently, sign byte ≥ 8);
and sign 0x00 with magnitude 0x10 decodes to 1. -/
theorem convertTemp_spec (ms ls : ℕ) (hms : ms < 256) (_hls : ls < 256) :
    convertTemp ms ls =
      (if 8 ≤ ms then -1 else 1) * ((((ms % 8) * 256 + ls : ℕ) : ℚ) / 16) ∧
    convertTemp 0 16 = 1 := by
  have hand : ms &&& 7 = ms % 8 := by
    simpa using Nat.and_pow_two_sub_one_eq_mod ms 3
  have hshift : ms >>> 3 = ms / 8 := by
    simp [Nat.shiftRight_eq_div_pow]
  refine ⟨?_, by norm_num [convertTemp]⟩
  simp only [convertTemp, hand, hshift]
  rcases Nat.lt_or_ge ms 8 with h | h
  · rw [if_neg (by omega), if_neg (by omega)]
    push_cast
    norm_num
    ring
  · rw [if_pos (by omega), if_pos (by omega)]
    push_cast
    norm_num
    ring

theorem convertTemp_spec_witness :
    (convertTemp 136 16 =
      (if 8 ≤ 136 then -1 else 1) * ((((136 % 8) * 256 + 16 : ℕ) : ℚ) / 16) ∧
    convertTemp 0 16 = 1) :=
  convertTemp_spec 136 16 (by norm_num) (by norm_num)

/-- C7: `enableFridge` unconditionally records the current time as
`last_fridge_time` and writes the fridge-on command byte, for every
state (hence for every elapsed time since the previous activation): the
cooldown check is commented out, so no invocation is skipped.  The other
controller fields are untouched. -/
theorem enableFridge_no_cooldown (st : FCState) (now : ℚ) :
    (enableFridge st now).1.last_fridge_time = now ∧
    (enableFridge st now).2 = [CMD_FRIDGEON] ∧
    (enableFridge st now).1.total_ticks = st.total_ticks ∧
    (enableFridge st now).1.status = st.status :=
  ⟨rfl, rfl, rfl, rfl⟩

/-- C8: on a blank read (end-of-stream) `recvPacket` logs the
device-went-away fault and calls `sys.exit(1)`, and the loop processes no
further frames — but the `SystemExit` is caught by the loop's bare
`except:` clause, so `statusLoop` returns normally and the whole process
is NOT terminated, contradicting the claim's fatality: the loop ends in
`caughtException`, never `processExit`. -/
theorem recv_eof_systemExit_caught (st : FCState) (rest : List (List ℕ)) :
    recvPacket st [] = (st, RecvOutcome.exited, [LogMsg.deviceWentAway]) ∧
    statusLoop st ([] :: rest) = (st, [RecvOutcome.exited], LoopExit.caughtException) ∧
    (statusLoop st ([] :: rest)).2.2 ≠ LoopExit.processExit :=
  ⟨rfl, rfl, by simp [statusLoop, recvPacket]⟩

theorem RecvOutcome.isAccepted_iff (o : RecvOutcome) :
    o.isAccepted = true ↔ ∃ s, o = RecvOutcome.accepted s := by
  cases o <;> simp [RecvOutcome.isAccepted]

/-- C3: whenever `StatusPacket.__init__` succeeds on a payload, the
fields are read positionally: payload byte 1 is the fridge state, byte 2
the valve state, and the tick count is byte 3 times 256 plus byte 4. -/
theorem statusPacket_fields_positional (pkt : List ℕ) (s : StatusPacket)
    (h : statusPacketInit pkt = some s) :
    s.fridge = pkt.getD 1 0 ∧ s.valve = pkt.getD 2 0 ∧
    s.ticks = pkt.getD 3 0 * 256 + pkt.getD 4 0 := by
  unfold statusPacketInit at h
  repeat' split at h
  · injection h with h
    subst h
    simp_all [List.getD_eq_getElem?_getD]
  · exact absurd h (by simp)

def samplePayload : List ℕ := [1, 1, 0, 0, 5, 0, 16]

def samplePacket : StatusPacket :=
  { temp := 1, ticks := 5, fridge := 1, valve := 0 }

theorem statusPacket_fields_positional_witness :
    samplePacket.fridge = samplePayload.getD 1 0 ∧
    samplePacket.valve = samplePayload.getD 2 0 ∧
    samplePacket.ticks = samplePayload.getD 3 0 * 256 + samplePayload.getD 4 0 :=
  statusPacket_fields_positional samplePayload samplePacket (by
    simp [statusPacketInit, samplePayload, samplePacket]
    norm_num [convertTemp])

/-- C5: over any run of consecutively accepted frames, the cumulative
tick total is the prior total plus the sum of the decoded tick fields;
and across every single receive step, accepted or not, `total_ticks`
never decreases. -/
theorem total_ticks_accumulation (st : FCState) (lines : List (List ℕ))
    (hacc : ∀ l ∈ lines, (lineOutcome l).isAccepted = true) :
    (runLines st lines).total_ticks =
      st.total_ticks + (lines.map fun l => (lineOutcome l).ticksOf).sum ∧
    ∀ st2 line, st2.total_ticks ≤ (recvPacket st2 line).1.total_ticks := by
  refine ⟨?_, fun st2 line => recvPacket_ticks_mono st2 line⟩
  induction lines generalizing st with
  | nil => simp [runLines]
  | cons l ls ih =>
    obtain ⟨s, ho⟩ := (RecvOutcome.isAccepted_iff _).1 (hacc l (List.mem_cons_self l ls))
    have hstep : (recvPacket st l).1 =
        { st with total_ticks := st.total_ticks + s.ticks, status := some s } := by
      rw [recvPacket_state, recvPacket_snd, ho]
    have hrun : runLines st (l :: ls) = runLines (recvPacket st l).1 ls := rfl
    rw [hrun, hstep, ih _ (fun x hx => hacc x (List.mem_cons_of_mem _ hx))]
    simp [ho, RecvOutcome.ticksOf]
    ring

def frameA : List ℕ := [77, 58, 1, 1, 0, 0, 5, 0, 16, 13, 10]

def frameB : List ℕ := [77, 58, 1, 1, 0, 0, 2, 0, 16, 13, 10]

theorem total_ticks_accumulation_witness :
    (runLines initState [frameA, frameB]).total_ticks =
      initState.total_ticks +
        ([frameA, frameB].map fun l => (lineOutcome l).ticksOf).sum :=
  (total_ticks_accumulation initState [frameA, frameB] (by decide)).1

/-- C6: a frame that does not begin with `M:` but begins with `K` is a
board banner: the outcome is the benign `banner` (no exception, no
`StatusPacket`), the state — `total_ticks` and the snapshot included —
is unchanged, and the only effect is the found-board log line. -/
theorem banner_frame_ignored (st : FCState) (line : List ℕ)
    (hM : markerMN.isPrefixOf line = false)
    (hK : markerK.isPrefixOf line = true) :
    (recvPacket st line).2.1 = RecvOutcome.banner ∧
    (recvPacket st line).1 = st ∧
    (recvPacket st line).2.2 = [LogMsg.foundBoard line.dropLast.dropLast] := by
  obtain ⟨t, rfl⟩ : ∃ t, line = 75 :: t := by
    cases line with
    | nil => simp [markerK, List.isPrefixOf] at hK
    | cons a t =>
      simp [markerK, List.isPrefixOf] at hK
      exact ⟨t, by rw [hK]⟩
  simp [recvPacket, markerMN, markerK, List.isPrefixOf]

theorem banner_frame_ignored_witness :
    (recvPacket initState [75, 69, 71, 13, 10]).2.1 = RecvOutcome.banner ∧
    (recvPacket initState [75, 69, 71, 13, 10]).1 = initState ∧
    (recvPacket initState [75, 69, 71, 13, 10]).2.2 =
      [LogMsg.foundBoard ([75, 69, 71, 13, 10] : List ℕ).dropLast.dropLast] :=
  banner_frame_ignored initState [75, 69, 71, 13, 10] (by decide) (by decide)

/-- C9: the controller starts with an empty (`None`) status snapshot, and
as long as no frame has been accepted the snapshot stays empty, so
`fridgeStatus` — which dereferences the snapshot unconditionally —
raises `AttributeError` rather than returning `FRIDGE_UNKNOWN` or any
other value. -/
theorem fridgeStatus_before_first_accept (lines : List (List ℕ))
    (h : ∀ l ∈ lines, (lineOutcome l).isAccepted = false) :
    initState.status = none ∧
    (runLines initState lines).status = none ∧
    fridgeStatus (runLines initState lines) = PyResult.attrError ∧
    ∀ v, fridgeStatus (runLines initState lines) ≠ PyResult.ok v := by
  have key : ∀ (ls : List (List ℕ)) (st : FCState),
      (∀ l ∈ ls, (lineOutcome l).isAccepted = false) → st.status = none →
      (runLines st ls).status = none := by
    intro ls
    induction ls with
    | nil => intro st _ hst; simpa [runLines] using hst
    | cons l t ih =>
      intro st hall hst
      have h1 : (recvPacket st l).1 = st :=
        recvPacket_not_accepted st l (hall l (List.mem_cons_self l t))
      have h2 : runLines st (l :: t) = runLines (recvPacket st l).1 t := rfl
      rw [h2, h1]
      exact ih st (fun x hx => hall x (List.mem_cons_of_mem _ hx)) hst
  have hnone := key lines initState h rfl
  refine ⟨rfl, hnone, by simp [fridgeStatus, hnone], by simp [fridgeStatus, hnone]⟩

theorem fridgeStatus_before_first_accept_witness :
    initState.status = none ∧
    (runLines initState [[75, 13, 10], [88, 13, 10]]).status = none ∧
    fridgeStatus (runLines initState [[75, 13, 10], [88, 13, 10]]) = PyResult.attrError ∧
    ∀ v, fridgeStatus (runLines initState [[75, 13, 10], [88, 13, 10]]) ≠ PyResult.ok v :=
  fridgeStatus_before_first_accept [[75, 13, 10], [88, 13, 10]] (by decide)

theorem pyInt_mono {a b : ℚ} (h : a ≤ b) : pyInt a ≤ pyInt b := by
  unfold pyInt
  by_cases ha : 0 ≤ a <;> by_cases hb : 0 ≤ b
  · simp only [if_pos ha, if_pos hb]
    exact Int.floor_le_floor h
  · exact absurd (le_trans ha h) hb
  · simp only [if_neg ha, if_pos hb]
    have h1 : (⌈a⌉ : ℤ) ≤ 0 := Int.ceil_le.2 (by exact_mod_cast (le_of_not_le ha))
    have h2 : (0 : ℤ) ≤ ⌊b⌋ := Int.floor_nonneg.2 hb
    omega
  · simp only [if_neg ha, if_neg hb]
    exact Int.ceil_le_ceil h

/-- C10: the simulator's tick query ignores the valve field — it is
`max(0, int(50*(now - open_time)))` for every state; closing the valve
leaves `open_time` (and hence the query) untouched, so the count keeps
growing monotonically with the clock after a close; and from the initial
state (`open_time = 0`) the query returns `int(50*now)`, the scaled
absolute wall-clock time, rather than 0. -/
theorem simulator_readTicks_spec (s : FlowSimulator) (v : ℕ) (now now2 : ℚ)
    (hnow : now ≤ now2) (h0 : 0 ≤ now) :
    ({ s with valve := v } : FlowSimulator).readTicks now = s.readTicks now ∧
    s.closeValve.open_time = s.open_time ∧
    s.closeValve.readTicks now = s.readTicks now ∧
    s.closeValve.readTicks now ≤ s.closeValve.readTicks now2 ∧
    FlowSimulator.init.readTicks now = pyInt (50 * now) := by
  refine ⟨rfl, rfl, rfl, ?_, ?_⟩
  · unfold FlowSimulator.readTicks FlowSimulator.closeValve
    exact max_le_max le_rfl (pyInt_mono (by linarith))
  · unfold FlowSimulator.readTicks FlowSimulator.init
    have hq : (0 : ℚ) ≤ 50 * now := by linarith
    simp only [sub_zero]
    rw [pyInt, if_pos hq]
    exact max_eq_right (Int.floor_nonneg.2 hq)

theorem simulator_readTicks_spec_witness :
    ({ FlowSimulator.init with valve := 1 } : FlowSimulator).readTicks 1 =
      FlowSimulator.init.readTicks 1 ∧
    FlowSimulator.init.closeValve.open_time = FlowSimulator.init.open_time ∧
    FlowSimulator.init.closeValve.readTicks 1 = FlowSimulator.init.readTicks 1 ∧
    FlowSimulator.init.closeValve.readTicks 1 ≤ FlowSimulator.init.closeValve.readTicks 3 ∧
    FlowSimulator.init.readTicks 1 = pyInt (50 * 1) :=
  simulator_readTicks_spec FlowSimulator.init 1 1 3 (by norm_num) (by norm_num)
